import Mathlib

/-!
Verification of the crawl / classify / score pipeline of `src/worker.js`
(the web-diagnosis core of the ciras-site repository).

The JavaScript functions are shallowly embedded as executable Lean
definitions.  Strings are Lean `String`s (lists of characters); the
JavaScript regular-expression scans are embedded as character-list
scanners that reproduce the matching behaviour of the concrete regexes
used by the source (leftmost match, greedy `[^>]*` with backtracking,
lazy captures, case-insensitive literals, global `lastIndex` stepping).
The WHATWG `URL` constructor is embedded by a simplified parser that
covers scheme/host/pathname/query splitting and relative-reference
resolution (no port, userinfo, percent-decoding, dot-segment
normalisation or hostname case folding: no claim exercises those).
Network effects are embedded by passing an explicit oracle
`fetch : String → Option String` mapping a URL to the response body
(`none` models any network error, timeout, non-success status or
non-HTML content type, all of which make `crawlPage` yield `null`).
-/

namespace Ciras

/-! ### Character and string utilities -/

/-- The single-quote character (written via its code point). -/
def squote : Char := Char.ofNat 39

/-- The double-quote character. -/
def dquote : Char := Char.ofNat 34

/-- A character is one of the two JavaScript string-attribute quotes. -/
def isQuote (c : Char) : Bool := c = squote || c = dquote

/-- Case-insensitive character comparison (ASCII folding, as in the
`i` flag of the source regexes over their ASCII literals). -/
def charCI (a b : Char) : Bool := a.toLower = b.toLower

/-- Does `cs` start with the literal `pat`, compared case-insensitively? -/
def startsWithCI : List Char → List Char → Bool
  | [], _ => true
  | _ :: _, [] => false
  | p :: ps, c :: cs => charCI p c && startsWithCI ps cs

/-- JavaScript `String.prototype.includes`. -/
def strContains (s pat : String) : Bool := decide (pat.data <:+: s.data)

/-- JavaScript `toLowerCase` (character-wise; the keywords it is applied
to are ASCII, where the two agree). -/
def jsToLower (s : String) : String := String.mk (s.data.map Char.toLower)

/-- JavaScript `trim`: drop whitespace from both ends. -/
def jsTrim (s : String) : String :=
  String.mk (((s.data.dropWhile Char.isWhitespace).reverse.dropWhile
    Char.isWhitespace).reverse)

/-- JavaScript `startsWith`. -/
def jsStartsWith (s pat : String) : Bool := pat.data.isPrefixOf s.data

/-- JavaScript `substring(0, n)`. -/
def jsTake (s : String) (n : Nat) : String := String.mk (s.data.take n)

/-- JavaScript `String.prototype.includes` for a single character. -/
def containsChar (s : String) (c : Char) : Bool := s.data.contains c

/-- JavaScript `split(sep)` for a one-character separator. -/
def splitOnChar (sep : Char) : List Char → List (List Char)
  | [] => [[]]
  | c :: cs =>
    if c = sep then [] :: splitOnChar sep cs
    else
      match splitOnChar sep cs with
      | t :: ts => (c :: t) :: ts
      | [] => [[c]]

/-- Index of the first case-insensitive occurrence of `pat` in `cs`. -/
def findIdxCI (pat : List Char) : List Char → Option Nat
  | [] => if pat = [] then some 0 else none
  | c :: cs =>
    if startsWithCI pat (c :: cs) then some 0
    else (findIdxCI pat cs).map (· + 1)

/-- Worker for `countCI`.  Every scanner in this development whose scan
position can jump forward is written with a `fuel` argument initialised
to the input length (an upper bound on the number of scan steps), so
that the recursion is structural and concrete instances reduce inside
the kernel; the fuel never runs out on the wrapper's call. -/
def countCIF (pat : List Char) : Nat → List Char → Nat
  | 0, _ => 0
  | _, [] => 0
  | fuel + 1, c :: cs =>
    if startsWithCI pat (c :: cs) then
      1 + countCIF pat fuel ((c :: cs).drop (max pat.length 1))
    else countCIF pat fuel cs

/-- Count the non-overlapping case-insensitive occurrences of `pat`
(the behaviour of `html.match(/pat/gi).length` for a literal pattern). -/
def countCI (pat cs : List Char) : Nat := countCIF pat cs.length cs

/-! ### The WHATWG URL model (`new URL`) -/

/-- The parts of a parsed URL that the source consults:
`origin` (scheme + host), `pathname` and the query string. -/
structure JsURL where
  scheme : String
  host : String
  pathname : String
  search : String
deriving Repr, DecidableEq

/-- `origin` as used by `linkUrl.origin + linkUrl.pathname`. -/
def JsURL.origin (u : JsURL) : String := u.scheme ++ "://" ++ u.host

/-- Characters that end the host part of a URL. -/
def hostEnd (c : Char) : Bool := c = '/' || c = '?' || c = '#'

/-- Characters that end the pathname part of a URL. -/
def pathEnd (c : Char) : Bool := c = '?' || c = '#'

/-- Parse the part of an absolute URL following `scheme://`. -/
def parseAfterScheme (scheme : String) (cs : List Char) : Option JsURL :=
  let host := cs.takeWhile (fun c => !hostEnd c)
  if host.isEmpty then none
  else
    let rest := cs.dropWhile (fun c => !hostEnd c)
    let beforeFrag := rest.takeWhile (fun c => c ≠ '#')
    let path := beforeFrag.takeWhile (fun c => !pathEnd c)
    let search := beforeFrag.dropWhile (fun c => !pathEnd c)
    some { scheme := scheme
           host := String.mk host
           pathname := if path.isEmpty then "/" else String.mk path
           search := String.mk search }

/-- Embedding of `new URL(s)` for the `http`/`https` schemes (any other
input throws in the source and is `none` here). -/
def urlParse (s : String) : Option JsURL :=
  if jsStartsWith s "https://" then parseAfterScheme "https" (s.data.drop 8)
  else if jsStartsWith s "http://" then parseAfterScheme "http" (s.data.drop 7)
  else none

/-- The directory part of a pathname (up to and including the last
slash), used for resolving path-relative references. -/
def dirChars (cs : List Char) : List Char :=
  (cs.reverse.dropWhile (fun c => c ≠ '/')).reverse

/-- Embedding of `new URL(ref, base)`: resolve a reference string
against a base URL, dropping any fragment. -/
def urlResolve (ref : String) (base : JsURL) : Option JsURL :=
  if jsStartsWith ref "https://" || jsStartsWith ref "http://" then urlParse ref
  else if jsStartsWith ref "//" then parseAfterScheme base.scheme (ref.data.drop 2)
  else if jsStartsWith ref "/" then
    let beforeFrag := ref.data.takeWhile (fun c => c ≠ '#')
    some { scheme := base.scheme
           host := base.host
           pathname := String.mk (beforeFrag.takeWhile (fun c => !pathEnd c))
           search := String.mk (beforeFrag.dropWhile (fun c => !pathEnd c)) }
  else if jsStartsWith ref "?" then
    some { base with search := String.mk (ref.data.takeWhile (fun c => c ≠ '#')) }
  else if jsStartsWith ref "#" then some base
  else if ref.isEmpty then some base
  else
    let beforeFrag := ref.data.takeWhile (fun c => c ≠ '#')
    some { scheme := base.scheme
           host := base.host
           pathname := String.mk (dirChars base.pathname.data ++
                         beforeFrag.takeWhile (fun c => !pathEnd c))
           search := String.mk (beforeFrag.dropWhile (fun c => !pathEnd c)) }

/-! ### Anchor scanning
Embedding of the global regex `/<a[^>]*href=["']([^"'#]*?)["']/gi` used by
`extractAllInternalLinks`, `extractNavLinks` and `countInternalLinks`:
leftmost match over `<a` starts, greedy backtracking `[^>]*` (the last
feasible `href=` inside the tag wins), lazy capture that can contain
neither quote nor `#`, and `lastIndex` resuming after each match. -/

/-- Match `href=["']([^"'#]*?)["']` at the start of `t`; returns the
capture. -/
def hrefTry (t : List Char) : Option (List Char) :=
  if startsWithCI "href=".data t then
    match t.drop 5 with
    | q :: rest =>
      if isQuote q then
        let cap := rest.takeWhile (fun c => !(isQuote c || c = '#'))
        match rest.drop cap.length with
        | q2 :: _ => if isQuote q2 then some cap else none
        | [] => none
      else none
    | [] => none
  else none

/-- Given the characters `s` following a literal `<a`, mirror the greedy
`[^>]*` followed by the `href` pattern: try the latest possible start of
`href=` inside the run of non-`>` characters.  Returns the capture and
the number of characters of `s` consumed by the whole match. -/
def hrefAt (s : List Char) : Option (List Char × Nat) :=
  let pre := s.takeWhile (fun c => c ≠ '>')
  (List.range (pre.length + 1)).reverse.findSome? fun j =>
    (hrefTry (s.drop j)).map fun cap => (cap, j + 5 + 1 + cap.length + 1)

/-- Worker for `anchorScan` (structural on its fuel). -/
def anchorScanF : Nat → List Char → List (List Char × List Char)
  | 0, _ => []
  | _, [] => []
  | fuel + 1, c :: cs =>
    if c = '<' && (match cs with | a :: _ => charCI 'a' a | [] => false) then
      match hrefAt (cs.drop 1) with
      | some (cap, used) =>
        (c :: cs.take (1 + used), cap) :: anchorScanF fuel (cs.drop (1 + used))
      | none => anchorScanF fuel cs
    else anchorScanF fuel cs

/-- All matches of the anchor regex: `(matched span, href capture)`
pairs in match order. -/
def anchorScan (cs : List Char) : List (List Char × List Char) :=
  anchorScanF cs.length cs

/-- First match of `/href=["']([^"'#]*?)["']/i` anywhere in a string
(used by `countInternalLinks` on each matched anchor span). -/
def firstHref : List Char → Option (List Char)
  | [] => none
  | c :: cs =>
    match hrefTry (c :: cs) with
    | some cap => some cap
    | none => firstHref cs

/-! ### Tag text, meta content and attribute tests -/

/-- Search for the first start position at which `f` matches, where the
gap skipped so far corresponds to a `[^>]*` segment: the search stops at
the first `>`. -/
def searchInRun (f : List Char → Option α) : List Char → Option α
  | [] => none
  | c :: cs =>
    match f (c :: cs) with
    | some x => some x
    | none => if c = '>' then none else searchInRun f cs

/-- Match `["']val["']` (value compared case-insensitively) at the start
of `s`; returns the characters following the closing quote. -/
def quotedValAt (val : List Char) (s : List Char) : Option (List Char) :=
  match s with
  | q :: rest =>
    if isQuote q && startsWithCI val rest then
      match rest.drop val.length with
      | q2 :: r2 => if isQuote q2 then some r2 else none
      | [] => none
    else none
  | [] => none

/-- Match `lit["']([^"']*)["']` at the start of `s`; returns the capture
and the characters following the closing quote. -/
def attrCapture (lit : List Char) (s : List Char) : Option (List Char × List Char) :=
  if startsWithCI lit s then
    match s.drop lit.length with
    | q :: rest =>
      if isQuote q then
        let cap := rest.takeWhile (fun c => !isQuote c)
        match rest.drop cap.length with
        | q2 :: r2 => if isQuote q2 then some (cap, r2) else none
        | [] => none
      else none
    | [] => none
  else none

/-- Match `[^>]*>([^<]*)</tag>` at the characters following a literal
`<tag`: skip to the first `>`, capture up to the next `<`, and require
the closing tag there. -/
def tagTextAt (tag : List Char) (s : List Char) : Option (List Char) :=
  let pre := s.takeWhile (fun c => c ≠ '>')
  match s.drop pre.length with
  | _ :: rest =>
    let cap := rest.takeWhile (fun c => c ≠ '<')
    if startsWithCI ('<' :: '/' :: tag ++ ['>']) (rest.drop cap.length) then some cap
    else none
  | [] => none

/-- Scan for the first match of `<tag[^>]*>([^<]*)</tag>` (the source
`extractTag` regex, case-insensitive). -/
def extractTagAux (tag : List Char) : List Char → Option (List Char)
  | [] => none
  | c :: cs =>
    if c = '<' && startsWithCI tag cs then
      match tagTextAt tag (cs.drop tag.length) with
      | some cap => some cap
      | none => extractTagAux tag cs
    else extractTagAux tag cs

/-- Embedding of `extractTag(html, tag)`. -/
def extractTag (html tag : String) : String :=
  match extractTagAux tag.data html.data with
  | some cap => jsTrim (String.mk cap)
  | none => ""

/-- Attempt `[^>]*name=["']NAME["'][^>]*content=["']([^"']*)["']` at the
characters following a literal `<meta`. -/
def metaTryNameFirst (name : List Char) (s : List Char) : Option (List Char) :=
  searchInRun (fun t =>
    if startsWithCI "name=".data t then
      match quotedValAt name (t.drop 5) with
      | some r2 => searchInRun (fun u => (attrCapture "content=".data u).map Prod.fst) r2
      | none => none
    else none) s

/-- Attempt `[^>]*content=["']([^"']*)["'][^>]*name=["']NAME["']` at the
characters following a literal `<meta` (the attribute-order fallback). -/
def metaTryContentFirst (name : List Char) (s : List Char) : Option (List Char) :=
  searchInRun (fun t =>
    match attrCapture "content=".data t with
    | some (cap, r2) =>
      searchInRun (fun u =>
        if startsWithCI "name=".data u then
          (quotedValAt name (u.drop 5)).map (fun _ => cap)
        else none) r2
    | none => none) s

/-- Scan for the first `<meta` position at which `atMeta` matches. -/
def scanMeta (atMeta : List Char → Option (List Char)) : List Char → Option (List Char)
  | [] => none
  | c :: cs =>
    if c = '<' && startsWithCI "meta".data cs then
      match atMeta (cs.drop 4) with
      | some cap => some cap
      | none => scanMeta atMeta cs
    else scanMeta atMeta cs

/-- Embedding of `extractMetaContent(html, name)`: named-first attribute
order, then content-first order. -/
def extractMetaContent (html name : String) : String :=
  match scanMeta (metaTryNameFirst name.data) html.data with
  | some cap => jsTrim (String.mk cap)
  | none =>
    match scanMeta (metaTryContentFirst name.data) html.data with
    | some cap => jsTrim (String.mk cap)
    | none => ""

/-- Test of a pattern `LEAD[^>]*attr=["']val["']` (used for the
viewport, JSON-LD and canonical flags). -/
def leadAttrTest (lead attr val : List Char) : List Char → Bool
  | [] => false
  | c :: cs =>
    if startsWithCI lead (c :: cs) then
      match searchInRun (fun t =>
          if startsWithCI attr t then
            (quotedValAt val (t.drop attr.length)).map (fun _ => ())
          else none) ((c :: cs).drop lead.length) with
      | some _ => true
      | none => leadAttrTest lead attr val cs
    else leadAttrTest lead attr val cs

/-! ### Image tags and alt text -/

/-- The value of `checkAltText`: the source returns the JavaScript
boolean `true` when a page has no image tags and a numeric ratio
otherwise, so the embedding distinguishes the two. -/
inductive AltVal where
  | bool (b : Bool)
  | num (q : ℚ)
deriving Repr, DecidableEq

/-- Worker for `imgTagsAux` (structural on its fuel). -/
def imgTagsF : Nat → List Char → List (List Char)
  | 0, _ => []
  | _, [] => []
  | fuel + 1, c :: cs =>
    if c = '<' && startsWithCI "img".data cs then
      let pre := (cs.drop 3).takeWhile (fun x => x ≠ '>')
      match (cs.drop 3).drop pre.length with
      | _ :: _ => pre :: imgTagsF fuel ((cs.drop 3).drop (pre.length + 1))
      | [] => []
    else imgTagsF fuel cs

/-- The matches of `/<img[^>]*>/gi`: for each complete image tag, the
characters between `<img` and the closing `>`. -/
def imgTagsAux (cs : List Char) : List (List Char) := imgTagsF cs.length cs

/-- Test of `/alt=["'][^"']+["']/i` against one image tag. -/
def hasAltAttr : List Char → Bool
  | [] => false
  | c :: cs =>
    if startsWithCI "alt=".data (c :: cs) then
      match (c :: cs).drop 4 with
      | q :: rest =>
        if isQuote q then
          let run := rest.takeWhile (fun x => !isQuote x)
          if run.isEmpty then hasAltAttr cs
          else
            match rest.drop run.length with
            | q2 :: _ => if isQuote q2 then true else hasAltAttr cs
            | [] => hasAltAttr cs
        else hasAltAttr cs
      | [] => hasAltAttr cs
    else hasAltAttr cs

/-- Embedding of `checkAltText(html)`. -/
def checkAltText (html : String) : AltVal :=
  let images := imgTagsAux html.data
  if images.length = 0 then .bool true
  else .num (((images.filter hasAltAttr).length : ℚ) / (images.length : ℚ))

/-! ### Copyright year, headings, text content -/

/-- Numeric value of a list of decimal digits. -/
def digitsVal (ds : List Char) : Nat := ds.foldl (fun n c => n * 10 + (c.toNat - 48)) 0

/-- Match `\s*(\d{4})` at the start of `s`. -/
def fourDigitsAfterWs (s : List Char) : Option Nat :=
  match s.dropWhile Char.isWhitespace with
  | a :: b :: c :: d :: _ =>
    if a.isDigit && b.isDigit && c.isDigit && d.isDigit then
      some (digitsVal [a, b, c, d])
    else none
  | _ => none

/-- Scan for `/©\s*(\d{4})|copyright\s*(\d{4})/i`. -/
def copyrightScan : List Char → Option Nat
  | [] => none
  | c :: cs =>
    if c = '©' then
      match fourDigitsAfterWs cs with
      | some y => some y
      | none => copyrightScan cs
    else if startsWithCI "copyright".data (c :: cs) then
      match fourDigitsAfterWs ((c :: cs).drop 9) with
      | some y => some y
      | none => copyrightScan cs
    else copyrightScan cs

/-- Embedding of `extractCopyrightYear(html)` (`parseInt` of the four
captured digits). -/
def extractCopyrightYear (html : String) : Option Nat := copyrightScan html.data

/-- Worker for `stripTagsEmpty` (structural on its fuel). -/
def stripTagsEmptyF : Nat → List Char → List Char
  | 0, _ => []
  | _, [] => []
  | fuel + 1, c :: cs =>
    if c = '<' then
      let run := cs.takeWhile (fun x => x ≠ '>')
      if 0 < run.length ∧ run.length < cs.length then
        stripTagsEmptyF fuel (cs.drop (run.length + 1))
      else c :: stripTagsEmptyF fuel cs
    else c :: stripTagsEmptyF fuel cs

/-- Replace every match of `/<[^>]+>/g` by nothing (used inside heading
texts).  A `<` with no following `>` (or an immediate `>`) is not a
match and stays. -/
def stripTagsEmpty (cs : List Char) : List Char := stripTagsEmptyF cs.length cs

/-- Worker for `stripTagsSpace` (structural on its fuel). -/
def stripTagsSpaceF : Nat → List Char → List Char
  | 0, _ => []
  | _, [] => []
  | fuel + 1, c :: cs =>
    if c = '<' then
      let run := cs.takeWhile (fun x => x ≠ '>')
      if 0 < run.length ∧ run.length < cs.length then
        ' ' :: stripTagsSpaceF fuel (cs.drop (run.length + 1))
      else c :: stripTagsSpaceF fuel cs
    else c :: stripTagsSpaceF fuel cs

/-- Replace every match of `/<[^>]+>/g` by a single space (used by
`extractTextContent`). -/
def stripTagsSpace (cs : List Char) : List Char := stripTagsSpaceF cs.length cs

/-- One heading found by `extractHeadingsText`. -/
structure HeadingText where
  level : String
  text : String
deriving Repr, DecidableEq

/-- The matches of `/<(h[1-3])[^>]*>([\s\S]*?)<\/\1>/gi`, already
stripped (`replace(/<[^>]+>/g, '')`), trimmed and truncated to 150
characters; empty texts are dropped. -/
def headingsScanF : Nat → List Char → List HeadingText
  | 0, _ => []
  | fuel + 1, c :: h :: d :: rest =>
    if c = '<' && charCI 'h' h && (d = '1' || d = '2' || d = '3') then
      let pre := rest.takeWhile (fun x => x ≠ '>')
      if pre.length < rest.length then
        let body := rest.drop (pre.length + 1)
        match findIdxCI ('<' :: '/' :: h :: d :: ['>']) body with
        | some k =>
          let text := jsTrim (String.mk (stripTagsEmpty (body.take k)))
          (if text = "" then []
           else [{ level := String.mk ['h', d], text := jsTake text 150 }]) ++
            headingsScanF fuel (body.drop (k + 5))
        | none => headingsScanF fuel (h :: d :: rest)
      else headingsScanF fuel (h :: d :: rest)
    else headingsScanF fuel (h :: d :: rest)
  | fuel + 1, _ :: cs => headingsScanF fuel cs
  | _, [] => []

/-- The matches of the heading regex (see the doc comment above). -/
def headingsScan (cs : List Char) : List HeadingText := headingsScanF cs.length cs

/-- Embedding of `extractHeadingsText(html)` (`slice(0, 30)`). -/
def extractHeadingsText (html : String) : List HeadingText :=
  (headingsScan html.data).take 30

/-- Remove every (lazy) block between `openTag` and `closeTag`
(the `/<script[\s\S]*?<\/script>/gi` and style replacements). -/
def removeBlocksF (openTag closeTag : List Char) : Nat → List Char → List Char
  | 0, _ => []
  | _, [] => []
  | fuel + 1, c :: cs =>
    if startsWithCI openTag (c :: cs) then
      match findIdxCI closeTag ((c :: cs).drop openTag.length) with
      | some k =>
        -- skip the whole block: `openTag.length + k + closeTag.length`
        -- characters of `c :: cs` (the tags used are never empty)
        removeBlocksF openTag closeTag fuel
          (cs.drop (openTag.length + k + closeTag.length - 1))
      | none => c :: removeBlocksF openTag closeTag fuel cs
    else c :: removeBlocksF openTag closeTag fuel cs

/-- Remove every (lazy) block between `openTag` and `closeTag`. -/
def removeBlocksCI (openTag closeTag cs : List Char) : List Char :=
  removeBlocksF openTag closeTag cs.length cs

/-- Worker for `collapseWs` (structural on its fuel). -/
def collapseWsF : Nat → List Char → List Char
  | 0, _ => []
  | _, [] => []
  | fuel + 1, c :: cs =>
    if c.isWhitespace then ' ' :: collapseWsF fuel (cs.dropWhile Char.isWhitespace)
    else c :: collapseWsF fuel cs

/-- Collapse every whitespace run to a single space (`replace(/\s+/g, ' ')`). -/
def collapseWs (cs : List Char) : List Char := collapseWsF cs.length cs

/-- Embedding of `extractTextContent(html)`: strip script and style
blocks, replace tags by spaces, collapse whitespace and trim. -/
def extractTextContent (html : String) : String :=
  jsTrim (String.mk (collapseWs (stripTagsSpace
    (removeBlocksCI "<style".data "</style>".data
      (removeBlocksCI "<script".data "</script>".data html.data)))))

/-! ### JSON-LD blocks -/

/-- Does an attribute region (non-`>` characters after `<script`)
contain `type=["']application/ld+json["']`? -/
def hasLdAttr : List Char → Bool
  | [] => false
  | c :: cs =>
    (startsWithCI "type=".data (c :: cs) &&
      (quotedValAt "application/ld+json".data ((c :: cs).drop 5)).isSome) ||
    hasLdAttr cs

/-- The captures of
`/<script[^>]*type=["']application\/ld\+json["'][^>]*>([\s\S]*?)<\/script>/gi`. -/
def jsonLdBlocksF : Nat → List Char → List (List Char)
  | 0, _ => []
  | _, [] => []
  | fuel + 1, c :: cs =>
    if startsWithCI "<script".data (c :: cs) then
      let s := (c :: cs).drop 7
      let run := s.takeWhile (fun x => x ≠ '>')
      if hasLdAttr run ∧ run.length < s.length then
        let body := s.drop (run.length + 1)
        match findIdxCI "</script>".data body with
        | some k => body.take k :: jsonLdBlocksF fuel (body.drop (k + 9))
        | none => jsonLdBlocksF fuel cs
      else jsonLdBlocksF fuel cs
    else jsonLdBlocksF fuel cs

/-- The JSON-LD block captures (see the doc comment above). -/
def jsonLdBlocks (cs : List Char) : List (List Char) := jsonLdBlocksF cs.length cs

/-- Model of `JSON.parse(block)['@type']` for a flat object whose
`"@type"` value is a string literal: find the first `"@type"` key and
return the string after the colon.  `none` models both a parse failure
and a missing or non-string type (the source pushes nothing in either
case).  Full JSON validation is not modelled; no claim depends on the
value for ill-formed blocks. -/
def jsonLdTypeOf (block : List Char) : Option String :=
  match findIdxCI ([dquote] ++ "@type".data ++ [dquote]) block with
  | none => none
  | some i =>
    match (block.drop (i + 7)).dropWhile Char.isWhitespace with
    | c :: r2 =>
      if c = ':' then
        match r2.dropWhile Char.isWhitespace with
        | q :: r3 =>
          if q = dquote then some (String.mk (r3.takeWhile (fun x => x ≠ dquote)))
          else none
        | [] => none
      else none
    | [] => none

/-- Embedding of `extractJsonLdTypes(html)`. -/
def extractJsonLdTypes (html : String) : List String :=
  (jsonLdBlocks html.data).filterMap jsonLdTypeOf

/-- Worker for `countLinkStylesheet` (structural on its fuel). -/
def countLinkStylesheetF : Nat → List Char → Nat
  | 0, _ => 0
  | _, [] => 0
  | fuel + 1, c :: cs =>
    if startsWithCI "<link".data (c :: cs) then
      match findIdxCI "stylesheet".data (((c :: cs).drop 5).takeWhile (fun x => x ≠ '>')) with
      | some k => 1 + countLinkStylesheetF fuel (cs.drop (4 + k + 10))
      | none => countLinkStylesheetF fuel cs
    else countLinkStylesheetF fuel cs

/-- Count of `/<link[^>]*stylesheet/gi` matches. -/
def countLinkStylesheet (cs : List Char) : Nat := countLinkStylesheetF cs.length cs

/-! ### The page signal record (`crawlPage`) -/

/-- Heading counts (`extractHeadings`). -/
structure Headings where
  h1 : Nat
  h2 : Nat
  h3 : Nat
deriving Repr, DecidableEq

/-- The record built by `crawlPage` for one successfully fetched page. -/
structure PageSignal where
  url : String
  html : String
  pageSize : Nat
  title : String
  metaDescription : String
  hasViewport : Bool
  hasJsonLd : Bool
  jsonLdTypes : List String
  headingStructure : Headings
  hasCanonical : Bool
  internalLinks : Nat
  hasFaq : Bool
  hasAddress : Bool
  hasPrice : Bool
  hasPhone : Bool
  hasCompanyInfo : Bool
  hasTestimonials : Bool
  hasPrivacyPolicy : Bool
  scriptCount : Nat
  stylesheetCount : Nat
  imageCount : Nat
  hasAltText : AltVal
  copyrightYear : Option Nat
  textContent : String
  contentLength : Nat
  headingsText : List HeadingText
  isHttps : Bool
deriving Repr, DecidableEq

/-- Case-insensitive `includes` (the `i` flag content tests). -/
def containsCI (s pat : String) : Bool := (findIdxCI pat.data s.data).isSome

/-- Does the page text match any of the alternatives of one of the
content-signal regexes? -/
def containsAnyCI (s : String) (pats : List String) : Bool :=
  pats.any (fun p => containsCI s p)

/-- Embedding of `countInternalLinks(html, baseUrl)`: every anchor-regex
match is re-searched for its first `href`, resolved against the base,
and counted when it is same-host; a resolution failure is counted as
internal (the source catch block). -/
def countInternalLinks (html baseUrl : String) : Nat :=
  match urlParse baseUrl with
  | none => 0
  | some base =>
    (anchorScan html.data).foldl (fun n m =>
      match firstHref m.1 with
      | some href =>
        if href.isEmpty then n
        else
          match urlResolve (String.mk href) base with
          | some link => if link.host = base.host then n + 1 else n
          | none => n + 1
      | none => n) 0

/-- Embedding of the signal-extraction part of `crawlPage(url, env)`:
given the final URL and the full response body, truncate the body to
500,000 characters and compute every signal from the truncated text
(`pageSize` alone uses the untruncated body). -/
def crawlPageSignals (finalUrl body : String) : PageSignal :=
  let truncatedHtml := jsTake body 500000
  { url := finalUrl
    html := truncatedHtml
    pageSize := body.length
    title := extractTag truncatedHtml "title"
    metaDescription := extractMetaContent truncatedHtml "description"
    hasViewport := leadAttrTest "meta".data "name=".data "viewport".data truncatedHtml.data
    hasJsonLd := leadAttrTest "<script".data "type=".data "application/ld+json".data truncatedHtml.data
    jsonLdTypes := extractJsonLdTypes truncatedHtml
    headingStructure :=
      { h1 := countCI "<h1".data truncatedHtml.data
        h2 := countCI "<h2".data truncatedHtml.data
        h3 := countCI "<h3".data truncatedHtml.data }
    hasCanonical := leadAttrTest "link".data "rel=".data "canonical".data truncatedHtml.data
    internalLinks := countInternalLinks truncatedHtml finalUrl
    hasFaq := containsAnyCI truncatedHtml ["faq", "よくある質問", "Q&A", "Q＆A"]
    hasAddress := containsAnyCI truncatedHtml ["〒", "住所", "所在地", "address"]
    hasPrice := containsAnyCI truncatedHtml ["円", "料金", "価格", "price"]
    hasPhone := containsAnyCI truncatedHtml ["tel:", "電話", "TEL"]
    hasCompanyInfo := containsAnyCI truncatedHtml ["会社概要", "代表", "設立", "about"]
    hasTestimonials := containsAnyCI truncatedHtml
      ["お客様の声", "実績", "事例", "voice", "testimonial", "case"]
    hasPrivacyPolicy := containsAnyCI truncatedHtml ["プライバシー", "個人情報", "privacy"]
    scriptCount := countCI "<script".data truncatedHtml.data
    stylesheetCount := countLinkStylesheet truncatedHtml.data
    imageCount := countCI "<img".data truncatedHtml.data
    hasAltText := checkAltText truncatedHtml
    copyrightYear := extractCopyrightYear truncatedHtml
    textContent := jsTake (extractTextContent truncatedHtml) 5000
    contentLength := (extractTextContent truncatedHtml).length
    headingsText := extractHeadingsText truncatedHtml
    isHttps := jsStartsWith finalUrl "https://" }

/-- Embedding of `crawlPage(url, env)`: the network (HTTP status and
content-type rejections, timeouts, aborts and the self-host asset path)
is abstracted by the oracle `fetch`, which yields the response body or
`none`; redirects are not modelled, so the final URL is the requested
URL. -/
def crawlPage (fetch : String → Option String) (url : String) : Option PageSignal :=
  (fetch url).map (crawlPageSignals url)

/-! ### Internal link extraction -/

/-- The extension filter of `extractAllInternalLinks`:
`pathname.split('.').pop()` must be empty, `html`, `htm` or `php`, or
the pathname must contain no dot at all. -/
def extAllowed (pathname : String) : Bool :=
  let ext := jsToLower (String.mk ((splitOnChar '.' pathname.data).getLast?.getD []))
  ext = "" || ext = "html" || ext = "htm" || ext = "php" || !(containsChar pathname '.')

/-- `Set.add` followed by an insertion-ordered spread: append if new. -/
def addLink (acc : List String) (s : String) : List String :=
  if acc.contains s then acc else acc ++ [s]

/-- The accept-and-normalise step applied to one captured `href`:
resolve it, require same host, a different pathname and an allowed
extension, and keep `origin + pathname`. -/
def linkTarget (base : JsURL) (href : String) : Option String :=
  match urlResolve href base with
  | none => none
  | some link =>
    if link.host = base.host && link.pathname ≠ base.pathname && extAllowed link.pathname then
      some (link.origin ++ link.pathname)
    else none

/-- Embedding of `extractAllInternalLinks(html, baseUrl)`. -/
def extractAllInternalLinks (html baseUrl : String) : List String :=
  match urlParse baseUrl with
  | none => []
  | some base =>
    (anchorScan html.data).foldl (fun acc m =>
      match linkTarget base (String.mk m.2) with
      | some s => addLink acc s
      | none => acc) []

/-- First capture of `/<nav[^>]*>([\s\S]*?)<\/nav>/i` (and the header
variant): the region between the opening tag and the first closing
tag. -/
def regionTo (openTag closeTag : List Char) : List Char → Option (List Char)
  | [] => none
  | c :: cs =>
    if startsWithCI openTag (c :: cs) then
      let s := (c :: cs).drop openTag.length
      let pre := s.takeWhile (fun x => x ≠ '>')
      if pre.length < s.length then
        match findIdxCI closeTag (s.drop (pre.length + 1)) with
        | some k => some ((s.drop (pre.length + 1)).take k)
        | none => regionTo openTag closeTag cs
      else regionTo openTag closeTag cs
    else regionTo openTag closeTag cs

/-- The accept-and-normalise step of `extractNavLinks`: as `linkTarget`
but additionally excluding the root pathname. -/
def navLinkTarget (base : JsURL) (href : String) : Option String :=
  match urlResolve href base with
  | none => none
  | some link =>
    if link.host = base.host && link.pathname ≠ base.pathname &&
        link.pathname ≠ "/" && extAllowed link.pathname then
      some (link.origin ++ link.pathname)
    else none

/-- Embedding of `extractNavLinks(html, baseUrl)`: same-host links found
inside the first `<nav>` (else `<header>`) region, else in the first
50,000 characters; the root pathname is additionally excluded, and order
is preserved with duplicates dropped. -/
def extractNavLinks (html baseUrl : String) : List String :=
  match urlParse baseUrl with
  | none => []
  | some base =>
    let searchHtml :=
      match regionTo "<nav".data "</nav>".data html.data with
      | some r => r
      | none =>
        match regionTo "<header".data "</header>".data html.data with
        | some r => r
        | none => html.data.take (min html.data.length 50000)
    (anchorScan searchHtml).foldl (fun acc m =>
      match navLinkTarget base (String.mk m.2) with
      | some s => addLink acc s
      | none => acc) []

/-! ### Link prioritisation (`prioritizePages`) -/

/-- The ordered keyword→weight table (JavaScript object-literal
insertion order). -/
def keywordWeights : List (String × Nat) :=
  [("company", 10), ("about", 10), ("voice", 10), ("testimonial", 10), ("case", 10),
   ("faq", 9), ("privacy", 8), ("terms", 8),
   ("service", 9), ("price", 9), ("pricing", 9), ("plan", 9),
   ("contact", 7), ("blog", 6), ("news", 6), ("column", 6),
   ("partner", 5), ("seminar", 5)]

/-- The weight of one candidate: the weight of the first table entry
whose keyword occurs in the lowercased URL, else 3. -/
def linkWeight (url : String) : Nat :=
  match keywordWeights.find? (fun kw => strContains (jsToLower url) kw.1) with
  | some kw => kw.2
  | none => 3

/-- Embedding of `prioritizePages(links)`: pair each link with its
weight, sort by weight descending and project the URLs back out.
`Array.prototype.sort` is stable (ECMA-262), which `List.insertionSort`
reproduces. -/
def prioritizePages (links : List String) : List String :=
  ((links.map (fun url => (url, linkWeight url))).insertionSort
    (fun a b => b.2 ≤ a.2)).map Prod.fst

/-! ### Page classification (`classifyPage`) -/

/-- Embedding of `classifyPage(url, title, text)`. -/
def classifyPage (url title text : String) : String :=
  let u := jsToLower url
  let t := jsToLower (title ++ " " ++ jsTake text 500)
  if strContains u "company" || strContains u "about" ||
      strContains t "会社概要" || strContains t "代表挨拶" then "company"
  else if strContains u "voice" || strContains u "testimonial" || strContains u "case" ||
      strContains t "お客様の声" || strContains t "導入事例" then "testimonials"
  else if strContains u "faq" || strContains t "よくある質問" || strContains t "q&a" then "faq"
  else if strContains u "privacy" || strContains t "プライバシー" ||
      strContains t "個人情報" then "privacy"
  else if strContains u "terms" || strContains t "利用規約" then "terms"
  else if strContains u "blog" || strContains u "news" || strContains u "column" then "blog"
  else if strContains u "contact" || strContains t "お問い合わせ" ||
      strContains t "お問合せ" then "contact"
  else if strContains u "price" || strContains u "pricing" || strContains u "plan" ||
      strContains t "料金" || strContains t "プラン" then "pricing"
  else if strContains u "service" || strContains t "サービス内容" ||
      strContains t "事業内容" then "service"
  else "other"

/-! ### Bucketed page selection (`crawlSiteV2`) -/

/-- One named priority bucket. -/
structure PriorityBucket where
  patterns : List String
  label : String
deriving Repr, DecidableEq

/-- The ordered bucket table of `crawlSiteV2`. -/
def priorityPatterns : List PriorityBucket :=
  [{ patterns := ["/about", "/company", "/corporate", "会社概要"], label := "会社概要" },
   { patterns := ["/service", "/business", "/solution", "サービス"], label := "サービス紹介" },
   { patterns := ["/faq", "/question", "よくある質問"], label := "FAQ" },
   { patterns := ["/contact", "/access", "お問い合わせ"], label := "所在地・連絡先" },
   { patterns := ["/blog", "/news", "/column", "お知らせ"], label := "コンテンツ" }]

/-- The first not-yet-used link whose lowercased URL matches one of the
bucket's patterns. -/
def pickForBucket (internalLinks used : List String) (b : PriorityBucket) : Option String :=
  internalLinks.find? (fun link =>
    !used.contains link && b.patterns.any (fun p => strContains (jsToLower link) p))

/-- The bucket-selection loop: one link per bucket, stopping at 4. -/
def selectByBuckets : List PriorityBucket → List String → List (String × String) →
    List (String × String)
  | [], _, sel => sel
  | b :: bs, links, sel =>
    if 4 ≤ sel.length then sel
    else
      match pickForBucket links (sel.map Prod.fst) b with
      | some link => selectByBuckets bs links (sel ++ [(link, b.label)])
      | none => selectByBuckets bs links sel

/-- The navigation-link fallback: fill the remaining slots (up to 4) in
document order, skipping already-selected URLs. -/
def fillFromNav (navLinks : List String) (sel : List (String × String)) :
    List (String × String) :=
  navLinks.foldl (fun s link =>
    if 4 ≤ s.length then s
    else if (s.map Prod.fst).contains link then s
    else s ++ [(link, "その他")]) sel

/-! ### Site profile aggregation (`buildSiteProfile`) -/

/-- A classified page: a page signal plus its category label. -/
structure ClassifiedPage extends PageSignal where
  type : String
deriving Repr, DecidableEq

/-- One entry of the per-selected-page status list of `crawlSiteV2`. -/
structure PageStatus where
  url : String
  label : String
  status : String
deriving Repr, DecidableEq

/-- The trimmed per-page summary stored in the crawl result. -/
structure PageSummary where
  url : String
  type : String
  title : String
  contentLength : Nat
  headingsText : List HeadingText
  textContent : String
deriving Repr, DecidableEq

/-- The aggregated `siteProfile` sub-record. -/
structure SiteProfile where
  hasTestimonials : Bool
  hasFaq : Bool
  hasCompanyInfo : Bool
  hasPrivacyPolicy : Bool
  hasPricing : Bool
  hasContact : Bool
  hasBlog : Bool
  hasService : Bool
  hasAddress : Bool
  hasPhone : Bool
  totalContentLength : Nat
  totalImages : Nat
  avgAltText : ℚ
  blogPostCount : Nat
  testimonialPageCount : Nat
  pageTypes : List String
deriving Repr, DecidableEq

/-- The top-level crawl result object.  `pageStatuses` is absent in the
object returned by `buildSiteProfile` itself (modelled as `[]`) and is
attached by `crawlSiteV2`. -/
structure CrawlResult where
  success : Bool
  finalUrl : String
  isHttps : Bool
  html : String
  pageSize : Nat
  title : String
  metaDescription : String
  hasViewport : Bool
  hasJsonLd : Bool
  jsonLdTypes : List String
  headingStructure : Headings
  hasCanonical : Bool
  internalLinks : Nat
  hasFaq : Bool
  hasAddress : Bool
  hasPrice : Bool
  hasPhone : Bool
  hasCompanyInfo : Bool
  scriptCount : Nat
  stylesheetCount : Nat
  imageCount : Nat
  hasAltText : AltVal
  copyrightYear : Option Nat
  textContent : String
  contentLength : Nat
  headingsText : List HeadingText
  totalPages : Nat
  pages : List PageSummary
  siteProfile : SiteProfile
  pageStatuses : List PageStatus
deriving Repr, DecidableEq

/-- Keep the first occurrence of each element (`[...new Set(l)]`). -/
def dedupKeepFirst (l : List String) : List String :=
  l.foldl (fun acc x => if acc.contains x then acc else acc ++ [x]) []

/-- Embedding of `buildSiteProfile(pages, homepage)`. -/
def buildSiteProfile (pages : List ClassifiedPage) (homepage : PageSignal) : CrawlResult :=
  let hasTestimonials := pages.any (fun p => p.type = "testimonials" || p.hasTestimonials)
  let hasFaq := pages.any (fun p => p.type = "faq" || p.hasFaq)
  let hasCompanyInfo := pages.any (fun p => p.type = "company" || p.hasCompanyInfo)
  let hasPrivacyPolicy := pages.any (fun p => p.type = "privacy" || p.hasPrivacyPolicy)
  let hasPricing := pages.any (fun p => p.type = "pricing" || p.hasPrice)
  let hasContact := pages.any (fun p => p.type = "contact")
  let hasBlog := pages.any (fun p => p.type = "blog")
  let hasService := pages.any (fun p => p.type = "service")
  let hasAddress := pages.any (fun p => p.hasAddress)
  let hasPhone := pages.any (fun p => p.hasPhone)
  let totalContentLength := (pages.map (fun p => p.contentLength)).sum
  let totalImages := (pages.map (fun p => p.imageCount)).sum
  let allJsonLdTypes := dedupKeepFirst (pages.flatMap (fun p => p.jsonLdTypes))
  let hasJsonLd := pages.any (fun p => p.hasJsonLd)
  let altTextScores := pages.filterMap (fun p =>
    match p.hasAltText with | .num q => some q | .bool _ => none)
  let avgAltText : ℚ :=
    if 0 < altTextScores.length then altTextScores.sum / (altTextScores.length : ℚ) else 0
  let blogPages := pages.filter (fun p => p.type = "blog")
  let testimonialPages := pages.filter (fun p => p.type = "testimonials")
  { success := true
    finalUrl := homepage.url
    isHttps := homepage.isHttps
    html := homepage.html
    pageSize := homepage.pageSize
    title := homepage.title
    metaDescription := homepage.metaDescription
    hasViewport := homepage.hasViewport
    hasJsonLd := hasJsonLd
    jsonLdTypes := allJsonLdTypes
    headingStructure := homepage.headingStructure
    hasCanonical := homepage.hasCanonical
    internalLinks := homepage.internalLinks
    hasFaq := hasFaq
    hasAddress := hasAddress
    hasPrice := hasPricing
    hasPhone := hasPhone
    hasCompanyInfo := hasCompanyInfo
    scriptCount := homepage.scriptCount
    stylesheetCount := homepage.stylesheetCount
    imageCount := homepage.imageCount
    hasAltText := homepage.hasAltText
    copyrightYear := homepage.copyrightYear
    textContent := homepage.textContent
    contentLength := homepage.contentLength
    headingsText := homepage.headingsText
    totalPages := pages.length
    pages := pages.map (fun p =>
      { url := p.url
        type := p.type
        title := p.title
        contentLength := p.contentLength
        headingsText := p.headingsText.take 10
        textContent := jsTake p.textContent 2000 })
    siteProfile :=
      { hasTestimonials := hasTestimonials
        hasFaq := hasFaq
        hasCompanyInfo := hasCompanyInfo
        hasPrivacyPolicy := hasPrivacyPolicy
        hasPricing := hasPricing
        hasContact := hasContact
        hasBlog := hasBlog
        hasService := hasService
        hasAddress := hasAddress
        hasPhone := hasPhone
        totalContentLength := totalContentLength
        totalImages := totalImages
        avgAltText := avgAltText
        blogPostCount := blogPages.length
        testimonialPageCount := testimonialPages.length
        pageTypes := dedupKeepFirst (pages.map (fun p => p.type)) }
    pageStatuses := [] }

/-! ### The crawl orchestrators -/

/-- A crawl either fails with a user-facing error or yields a result. -/
inductive CrawlOutcome where
  | failed (error : String)
  | ok (r : CrawlResult)
deriving Repr, DecidableEq

/-- The `success` flag of the returned object. -/
def CrawlOutcome.successB : CrawlOutcome → Bool
  | .failed _ => false
  | .ok r => r.success

/-- The profile part of the returned object (`none` on failure: the
failure object carries no profile fields at all). -/
def CrawlOutcome.profileOpt : CrawlOutcome → Option CrawlResult
  | .failed _ => none
  | .ok r => some r

/-- The error string of the returned object (`none` on success). -/
def CrawlOutcome.errorOpt : CrawlOutcome → Option String
  | .failed e => some e
  | .ok _ => none

/-- The `pageStatuses` list of the returned object. -/
def CrawlOutcome.statuses : CrawlOutcome → List PageStatus
  | .failed _ => []
  | .ok r => r.pageStatuses

/-- URL normalisation shared by both crawlers: trim, then prepend
`https://` when the input does not start with `http`. -/
def normalizeUrl (inputUrl : String) : String :=
  let url := jsTrim inputUrl
  if jsStartsWith url "http" then url else "https://" ++ url

/-- Classify every fetched page (`pages.map(p => ({...p, type: ...}))`). -/
def classifyAll (pages : List PageSignal) : List ClassifiedPage :=
  pages.map (fun p =>
    { toPageSignal := p, type := classifyPage p.url p.title p.textContent })

/-- Embedding of `crawlSite(inputUrl, env)` (the broad 9-subpage
strategy).  The second component is the trace of URLs passed to the
fetch oracle, in call order, used to state which fetches occur. -/
def crawlSite (fetch : String → Option String) (inputUrl : String) :
    CrawlOutcome × List String :=
  let url := normalizeUrl inputUrl
  match urlParse url with
  | none => (.failed "URLの形式が正しくありません。例：https://example.com", [])
  | some _ =>
    match crawlPage fetch url with
    | none => (.failed "サイトにアクセスできませんでした。URLが正しいか確認してください。", [url])
    | some homepage =>
      let internalLinks := extractAllInternalLinks homepage.html homepage.url
      let pagesToCrawl := (prioritizePages internalLinks).take 9
      let subpages := pagesToCrawl.map (fun l => crawlPage fetch l)
      let pages := homepage :: subpages.filterMap id
      (.ok (buildSiteProfile (classifyAll pages) homepage), url :: pagesToCrawl)

/-- Embedding of `crawlSiteV2(inputUrl, env)` (the bucketed 4-subpage
strategy), with the same fetch-trace second component.  The
`Promise.allSettled` join preserves order and `crawlPage` never
rejects, so each selected page yields exactly one status entry. -/
def crawlSiteV2 (fetch : String → Option String) (inputUrl : String) :
    CrawlOutcome × List String :=
  let url := normalizeUrl inputUrl
  match urlParse url with
  | none => (.failed "URLの形式が正しくありません。例：https://example.com", [])
  | some _ =>
    match crawlPage fetch url with
    | none => (.failed "サイトにアクセスできませんでした。URLが正しいか確認してください。", [url])
    | some homepage =>
      let internalLinks := extractAllInternalLinks homepage.html homepage.url
      let fromBuckets := selectByBuckets priorityPatterns internalLinks []
      let selectedPages :=
        if fromBuckets.length < 4 then
          fillFromNav (extractNavLinks homepage.html homepage.url) fromBuckets
        else fromBuckets
      let results := selectedPages.map (fun page => (page, crawlPage fetch page.1))
      let pageStatuses :=
        ({ url := homepage.url, label := "トップページ", status := "success" } : PageStatus) ::
          results.map (fun r =>
            match r.2 with
            | some _ => { url := r.1.1, label := r.1.2, status := "success" }
            | none => { url := r.1.1, label := r.1.2, status := "failed" })
      let pages := homepage :: results.filterMap (fun r => r.2)
      let profile := buildSiteProfile (classifyAll pages) homepage
      (.ok { profile with pageStatuses := pageStatuses },
        url :: selectedPages.map Prod.fst)

/-! ### Scoring engine (`scoreSite` and the four category scorers)
The sequential `+=` accumulations of the source become sums of
conditionals; each sub-criterion is a separate definition so that its
bound can be stated on its own.  `scoreTechnical` reads
`new Date().getFullYear()`, which is passed in as `currentYear`. -/

/-- A sub-criterion entry `{score, max}` of a category breakdown. -/
structure SubScore where
  score : Nat
  max : Nat
deriving Repr, DecidableEq

/-- JavaScript `a || b` on numbers (`0` is falsy). -/
def jsOrNat (a b : Nat) : Nat := if a = 0 then b else a

/-- Service-description clarity (max 7). -/
def serviceClarityScore (crawl : CrawlResult) (sp : SiteProfile) : Nat :=
  (if sp.hasService || crawl.hasPrice then 3 else 0) +
  (if crawl.title ≠ "" ∧ 10 ≤ crawl.title.length then 2 else 0) +
  (if crawl.metaDescription ≠ "" ∧ 50 ≤ crawl.metaDescription.length then 2 else 0)

/-- Content-volume tiers over the aggregated text length (max 6). -/
def contentDepthScore (crawl : CrawlResult) (sp : SiteProfile) : Nat :=
  let totalLen := jsOrNat sp.totalContentLength crawl.contentLength
  if 20000 < totalLen then 6
  else if 10000 < totalLen then 4
  else if 5000 < totalLen then 2
  else if 2000 < totalLen then 1
  else 0

/-- Page-type diversity tiers (max 6). -/
def diversityScore (sp : SiteProfile) : Nat :=
  let pageTypeCount := sp.pageTypes.length
  if 6 ≤ pageTypeCount then 6
  else if 4 ≤ pageTypeCount then 4
  else if 3 ≤ pageTypeCount then 3
  else if 2 ≤ pageTypeCount then 1
  else 0

/-- The content category (`scoreContent`). -/
structure ContentScore where
  total : Nat
  maxScore : Nat
  serviceClarity : SubScore
  contentDepth : SubScore
  diversity : SubScore
  faq : SubScore
  pricing : SubScore
deriving Repr, DecidableEq

/-- Embedding of `scoreContent(crawl, sp)`. -/
def scoreContent (crawl : CrawlResult) (sp : SiteProfile) : ContentScore :=
  let serviceClarity := serviceClarityScore crawl sp
  let contentDepth := contentDepthScore crawl sp
  let diversity := diversityScore sp
  let faq := if sp.hasFaq then 3 else 0
  let pricing := if sp.hasPricing then 3 else 0
  { total := serviceClarity + contentDepth + diversity + faq + pricing
    maxScore := 25
    serviceClarity := { score := serviceClarity, max := 7 }
    contentDepth := { score := contentDepth, max := 6 }
    diversity := { score := diversity, max := 6 }
    faq := { score := faq, max := 3 }
    pricing := { score := pricing, max := 3 } }

/-- Testimonial evidence (max 8). -/
def testimonialsScore (sp : SiteProfile) : Nat :=
  if sp.hasTestimonials then 5 + (if 2 ≤ sp.testimonialPageCount then 3 else 0) else 0

/-- Company information (max 6). -/
def companyScore (sp : SiteProfile) : Nat :=
  if sp.hasCompanyInfo then
    3 + (if sp.hasAddress then 2 else 0) + (if sp.hasPhone then 1 else 0)
  else 0

/-- Fresh content (max 3). -/
def freshContentScore (sp : SiteProfile) : Nat :=
  if sp.hasBlog then 2 + (if 3 ≤ sp.blogPostCount then 1 else 0) else 0

/-- The trust category (`scoreTrust`). -/
structure TrustScore where
  total : Nat
  maxScore : Nat
  testimonials : SubScore
  company : SubScore
  legal : SubScore
  contact : SubScore
  freshContent : SubScore
deriving Repr, DecidableEq

/-- Embedding of `scoreTrust(crawl, sp)`. -/
def scoreTrust (sp : SiteProfile) : TrustScore :=
  let testimonials := testimonialsScore sp
  let company := companyScore sp
  let legal := if sp.hasPrivacyPolicy then 4 else 0
  let contact := if sp.hasContact then 4 else 0
  let freshContent := freshContentScore sp
  { total := testimonials + company + legal + contact + freshContent
    maxScore := 25
    testimonials := { score := testimonials, max := 8 }
    company := { score := company, max := 6 }
    legal := { score := legal, max := 4 }
    contact := { score := contact, max := 4 }
    freshContent := { score := freshContent, max := 3 } }

/-- Structured data (max 8). -/
def structuredScore (crawl : CrawlResult) : Nat :=
  if crawl.hasJsonLd then
    3 + (if crawl.jsonLdTypes.contains "Organization" ||
            crawl.jsonLdTypes.contains "LocalBusiness" then 2 else 0) +
    (if crawl.jsonLdTypes.contains "FAQPage" then 2 else 0) +
    (if crawl.jsonLdTypes.contains "Service" ||
        crawl.jsonLdTypes.contains "Product" then 1 else 0)
  else 0

/-- Heading structure (max 5). -/
def headingsScore (crawl : CrawlResult) : Nat :=
  (if 1 ≤ crawl.headingStructure.h1 then 2 else 0) +
  (if 3 ≤ crawl.headingStructure.h2 then 2
   else if 1 ≤ crawl.headingStructure.h2 then 1 else 0) +
  (if 2 ≤ crawl.headingStructure.h3 then 1 else 0)

/-- Information clarity (max 5). -/
def clarityScore (sp : SiteProfile) : Nat :=
  (if sp.hasAddress then 2 else 0) + (if sp.hasPhone then 1 else 0) +
  (if sp.hasPricing then 2 else 0)

/-- Internal-link density tiers (max 4). -/
def linkingScore (crawl : CrawlResult) : Nat :=
  if 15 ≤ crawl.internalLinks then 4
  else if 8 ≤ crawl.internalLinks then 3
  else if 3 ≤ crawl.internalLinks then 1
  else 0

/-- Meta completeness (max 3). -/
def metaScore (crawl : CrawlResult) : Nat :=
  (if crawl.hasCanonical then 2 else 0) +
  (if crawl.metaDescription ≠ "" ∧ 30 ≤ crawl.metaDescription.length then 1 else 0)

/-- The machine-readability category (`scoreAIReady`). -/
structure AIReadyScore where
  total : Nat
  maxScore : Nat
  structured : SubScore
  headings : SubScore
  clarity : SubScore
  linking : SubScore
  meta : SubScore
deriving Repr, DecidableEq

/-- Embedding of `scoreAIReady(crawl, sp)`. -/
def scoreAIReady (crawl : CrawlResult) (sp : SiteProfile) : AIReadyScore :=
  let structured := structuredScore crawl
  let headings := headingsScore crawl
  let clarity := clarityScore sp
  let linking := linkingScore crawl
  let meta := metaScore crawl
  { total := structured + headings + clarity + linking + meta
    maxScore := 25
    structured := { score := structured, max := 8 }
    headings := { score := headings, max := 5 }
    clarity := { score := clarity, max := 5 }
    linking := { score := linking, max := 4 }
    meta := { score := meta, max := 3 } }

/-- Page-weight and asset-count tiers (max 5). -/
def speedScore (crawl : CrawlResult) : Nat :=
  (if crawl.pageSize < 150000 then 3
   else if crawl.pageSize < 300000 then 2
   else if crawl.pageSize < 500000 then 1
   else 0) +
  (if crawl.scriptCount ≤ 5 then 1 else 0) +
  (if crawl.imageCount ≤ 15 then 1 else 0)

/-- Alt-text accessibility tiers (max 5); a non-numeric `hasAltText`
(the boolean of the no-image case) is treated as ratio 0 by the
`typeof` check. -/
def accessibilityScore (crawl : CrawlResult) : Nat :=
  let altScore : ℚ := match crawl.hasAltText with | .num q => q | .bool _ => 0
  if (9 : ℚ) / 10 ≤ altScore then 5
  else if (7 : ℚ) / 10 ≤ altScore then 3
  else if (4 : ℚ) / 10 ≤ altScore then 2
  else if crawl.imageCount = 0 then 3
  else 0

/-- Copyright-year recency plus blog presence (max 5).  A detected year
of `0` is falsy in the source and scores nothing. -/
def freshnessScore (currentYear : Nat) (crawl : CrawlResult) (sp : SiteProfile) : Nat :=
  (match crawl.copyrightYear with
   | some y =>
     if y ≠ 0 then
       if currentYear ≤ y then 3
       else if currentYear - 1 ≤ y then 2
       else if currentYear - 2 ≤ y then 1
       else 0
     else 0
   | none => 0) +
  (if sp.hasBlog then 2 else 0)

/-- The technical category (`scoreTechnical`). -/
structure TechnicalScore where
  total : Nat
  maxScore : Nat
  security : SubScore
  mobile : SubScore
  speed : SubScore
  accessibility : SubScore
  freshness : SubScore
deriving Repr, DecidableEq

/-- Embedding of `scoreTechnical(crawl, sp)`. -/
def scoreTechnical (currentYear : Nat) (crawl : CrawlResult) (sp : SiteProfile) :
    TechnicalScore :=
  let security := if crawl.isHttps then 5 else 0
  let mobile := if crawl.hasViewport then 5 else 0
  let speed := speedScore crawl
  let accessibility := accessibilityScore crawl
  let freshness := freshnessScore currentYear crawl sp
  { total := security + mobile + speed + accessibility + freshness
    maxScore := 25
    security := { score := security, max := 5 }
    mobile := { score := mobile, max := 5 }
    speed := { score := speed, max := 5 }
    accessibility := { score := accessibility, max := 5 }
    freshness := { score := freshness, max := 5 } }

/-- The `{totalScore, categories}` object of `scoreSite`. -/
structure SiteScore where
  totalScore : Nat
  a : ContentScore
  b : TrustScore
  c : AIReadyScore
  d : TechnicalScore
deriving Repr, DecidableEq

/-- Embedding of `scoreSite(crawl)` (the `crawl.siteProfile || ` empty
default only guards objects without a profile; every `CrawlResult`
carries one). -/
def scoreSite (currentYear : Nat) (crawl : CrawlResult) : SiteScore :=
  let sp := crawl.siteProfile
  let a := scoreContent crawl sp
  let b := scoreTrust sp
  let c := scoreAIReady crawl sp
  let d := scoreTechnical currentYear crawl sp
  { totalScore := a.total + b.total + c.total + d.total, a := a, b := b, c := c, d := d }

/-! ### The spec-side description of the link extractor
These definitions follow the words of the specification (for the
refinement claim about `extractAllInternalLinks`), not the source:
anchor `href` attribute values (with no restriction on `#` inside a
value), exclusion of fragment-only links only, and a file-extension
check on the final path segment. -/

/-- As `hrefTry` but for an href value read off the markup as an
attribute value: the capture may contain `#`. -/
def hrefTrySpec (t : List Char) : Option (List Char) :=
  if startsWithCI "href=".data t then
    match t.drop 5 with
    | q :: rest =>
      if isQuote q then
        let cap := rest.takeWhile (fun c => !isQuote c)
        match rest.drop cap.length with
        | q2 :: _ => if isQuote q2 then some cap else none
        | [] => none
      else none
    | [] => none
  else none

/-- As `hrefAt`, over spec-side href values. -/
def hrefAtSpec (s : List Char) : Option (List Char × Nat) :=
  let pre := s.takeWhile (fun c => c ≠ '>')
  (List.range (pre.length + 1)).reverse.findSome? fun j =>
    (hrefTrySpec (s.drop j)).map fun cap => (cap, j + 5 + 1 + cap.length + 1)

/-- Worker for `anchorScanSpec` (structural on its fuel). -/
def anchorScanSpecF : Nat → List Char → List (List Char)
  | 0, _ => []
  | _, [] => []
  | fuel + 1, c :: cs =>
    if c = '<' && (match cs with | a :: _ => charCI 'a' a | [] => false) then
      match hrefAtSpec (cs.drop 1) with
      | some (cap, used) => cap :: anchorScanSpecF fuel (cs.drop (1 + used))
      | none => anchorScanSpecF fuel cs
    else anchorScanSpecF fuel cs

/-- All anchor `href` attribute values of a markup string. -/
def anchorScanSpec (cs : List Char) : List (List Char) := anchorScanSpecF cs.length cs

/-- The spec reading of the extension filter: a path whose final
segment has no extension is a page, otherwise the extension must be
`html`, `htm` or `php`. -/
def specExtOk (pathname : String) : Bool :=
  let seg := String.mk ((splitOnChar '/' pathname.data).getLast?.getD [])
  if containsChar seg '.' then
    let ext := jsToLower (String.mk ((splitOnChar '.' seg.data).getLast?.getD []))
    ext = "html" || ext = "htm" || ext = "php"
  else true

/-- The output described by the spec for the link extractor: the set of
distinct same-host URLs reachable via anchor `href` attributes,
excluding the page's own path, fragment-only links and non-page
extensions; unresolvable hrefs are skipped. -/
def specInternalLinks (html baseUrl : String) : List String :=
  match urlParse baseUrl with
  | none => []
  | some base =>
    dedupKeepFirst ((anchorScanSpec html.data).filterMap (fun cap =>
      let href := String.mk cap
      if jsStartsWith href "#" then none
      else
        match urlResolve href base with
        | none => none
        | some link =>
          if link.host = base.host && link.pathname ≠ base.pathname &&
              specExtOk link.pathname then
            some (link.origin ++ link.pathname)
          else none))

/-! ### Concrete fixtures used by the claim theorems -/

/-- The inert site profile. -/
def sp0 : SiteProfile :=
  { hasTestimonials := false
    hasFaq := false
    hasCompanyInfo := false
    hasPrivacyPolicy := false
    hasPricing := false
    hasContact := false
    hasBlog := false
    hasService := false
    hasAddress := false
    hasPhone := false
    totalContentLength := 0
    totalImages := 0
    avgAltText := 0
    blogPostCount := 0
    testimonialPageCount := 0
    pageTypes := [] }

/-- A crawl-result record with every signal at its inert value, used to
evaluate the scorers at chosen points. -/
def crawl0 : CrawlResult :=
  { success := true
    finalUrl := ""
    isHttps := false
    html := ""
    pageSize := 0
    title := ""
    metaDescription := ""
    hasViewport := false
    hasJsonLd := false
    jsonLdTypes := []
    headingStructure := { h1 := 0, h2 := 0, h3 := 0 }
    hasCanonical := false
    internalLinks := 0
    hasFaq := false
    hasAddress := false
    hasPrice := false
    hasPhone := false
    hasCompanyInfo := false
    scriptCount := 0
    stylesheetCount := 0
    imageCount := 0
    hasAltText := .bool true
    copyrightYear := none
    textContent := ""
    contentLength := 0
    headingsText := []
    totalPages := 0
    pages := []
    siteProfile := sp0
    pageStatuses := [] }

/-- Homepage body of the 3-of-4-subpages-fail scenario: four internal
links, one per priority bucket. -/
def hpBodyC3 : String :=
  "<html><head><title>Example Site</title></head><body><a href=\"/about\">A</a><a href=\"/service\">S</a><a href=\"/faq\">F</a><a href=\"/contact\">C</a></body></html>"

/-- Body of the single subpage that succeeds in that scenario. -/
def aboutBodyC3 : String :=
  "<html><head><title>About Us</title></head><body><h1>Company</h1>Our company profile.</body></html>"

/-- The fetch oracle of the scenario: the homepage and `/about` resolve,
the other three selected subpages fail. -/
def fetchC3 : String → Option String := fun u =>
  if u = "https://example.com" then some hpBodyC3
  else if u = "https://example.com/about" then some aboutBodyC3
  else none

/-- A response body longer than the 500,000-character truncation
ceiling. -/
def bigBody : String := String.mk (List.replicate 500001 'a')

/-- A parsed URL none of whose output-relevant parts contains a query
or fragment character (an invariant of the URL model used to show that
extracted link URLs carry no query string). -/
def noQH (u : JsURL) : Prop :=
  ('?' ∉ u.scheme.data ∧ '#' ∉ u.scheme.data) ∧
  ('?' ∉ u.host.data ∧ '#' ∉ u.host.data) ∧
  ('?' ∉ u.pathname.data ∧ '#' ∉ u.pathname.data)

/-! ## Helper lemmas -/

set_option maxRecDepth 8000

theorem serviceClarityScore_le (crawl : CrawlResult) (sp : SiteProfile) :
    serviceClarityScore crawl sp ≤ 7 := by
  unfold serviceClarityScore; split_ifs <;> norm_num

theorem contentDepthScore_le (crawl : CrawlResult) (sp : SiteProfile) :
    contentDepthScore crawl sp ≤ 6 := by
  unfold contentDepthScore; dsimp only; split_ifs <;> norm_num

theorem diversityScore_le (sp : SiteProfile) : diversityScore sp ≤ 6 := by
  unfold diversityScore; dsimp only; split_ifs <;> norm_num

theorem scoreContent_total_le (crawl : CrawlResult) (sp : SiteProfile) :
    (scoreContent crawl sp).total ≤ 25 := by
  have h1 := serviceClarityScore_le crawl sp
  have h2 := contentDepthScore_le crawl sp
  have h3 := diversityScore_le sp
  simp only [scoreContent]
  split_ifs <;> omega

theorem testimonialsScore_le (sp : SiteProfile) : testimonialsScore sp ≤ 8 := by
  unfold testimonialsScore; split_ifs <;> norm_num

theorem companyScore_le (sp : SiteProfile) : companyScore sp ≤ 6 := by
  unfold companyScore; split_ifs <;> norm_num

theorem freshContentScore_le (sp : SiteProfile) : freshContentScore sp ≤ 3 := by
  unfold freshContentScore; split_ifs <;> norm_num

theorem scoreTrust_total_le (sp : SiteProfile) : (scoreTrust sp).total ≤ 25 := by
  have h1 := testimonialsScore_le sp
  have h2 := companyScore_le sp
  have h3 := freshContentScore_le sp
  simp only [scoreTrust]
  split_ifs <;> omega

theorem structuredScore_le (crawl : CrawlResult) : structuredScore crawl ≤ 8 := by
  unfold structuredScore; split_ifs <;> norm_num

theorem headingsScore_le (crawl : CrawlResult) : headingsScore crawl ≤ 5 := by
  unfold headingsScore; split_ifs <;> norm_num

theorem clarityScore_le (sp : SiteProfile) : clarityScore sp ≤ 5 := by
  unfold clarityScore; split_ifs <;> norm_num

theorem linkingScore_le (crawl : CrawlResult) : linkingScore crawl ≤ 4 := by
  unfold linkingScore; split_ifs <;> norm_num

theorem metaScore_le (crawl : CrawlResult) : metaScore crawl ≤ 3 := by
  unfold metaScore; split_ifs <;> norm_num

theorem scoreAIReady_total_le (crawl : CrawlResult) (sp : SiteProfile) :
    (scoreAIReady crawl sp).total ≤ 25 := by
  have h1 := structuredScore_le crawl
  have h2 := headingsScore_le crawl
  have h3 := clarityScore_le sp
  have h4 := linkingScore_le crawl
  have h5 := metaScore_le crawl
  simp only [scoreAIReady]
  omega

theorem speedScore_le (crawl : CrawlResult) : speedScore crawl ≤ 5 := by
  unfold speedScore; split_ifs <;> norm_num

theorem accessibilityScore_le (crawl : CrawlResult) : accessibilityScore crawl ≤ 5 := by
  unfold accessibilityScore; dsimp only; split_ifs <;> norm_num

theorem freshnessScore_le (currentYear : Nat) (crawl : CrawlResult) (sp : SiteProfile) :
    freshnessScore currentYear crawl sp ≤ 5 := by
  unfold freshnessScore
  cases crawl.copyrightYear <;> dsimp only <;> split_ifs <;> norm_num

theorem scoreTechnical_total_le (currentYear : Nat) (crawl : CrawlResult)
    (sp : SiteProfile) : (scoreTechnical currentYear crawl sp).total ≤ 25 := by
  have h1 := speedScore_le crawl
  have h2 := accessibilityScore_le crawl
  have h3 := freshnessScore_le currentYear crawl sp
  simp only [scoreTechnical]
  split_ifs <;> omega

theorem buildSiteProfile_success (pages : List ClassifiedPage) (hp : PageSignal) :
    (buildSiteProfile pages hp).success = true := rfl

theorem filter_weight_orderedInsert (w : Nat) (x : String × Nat) (l : List (String × Nat)) :
    (l.orderedInsert (fun a b => b.2 ≤ a.2) x).filter (fun y => y.2 = w) =
      ((x :: l).filter (fun y => y.2 = w)) := by
  induction l with
  | nil => rfl
  | cons y l ih =>
    rw [List.orderedInsert]
    split_ifs with hr
    · rfl
    · push_neg at hr
      by_cases hy : y.2 = w <;> by_cases hx : x.2 = w
      · omega
      · simp [List.filter_cons, hy, hx, ih]
      · simp [List.filter_cons, hy, hx, ih]
      · simp [List.filter_cons, hy, hx, ih]

theorem filter_weight_insertionSort (w : Nat) (l : List (String × Nat)) :
    (l.insertionSort (fun a b => b.2 ≤ a.2)).filter (fun y => y.2 = w) =
      l.filter (fun y => y.2 = w) := by
  induction l with
  | nil => rfl
  | cons x l ih =>
    rw [List.insertionSort, filter_weight_orderedInsert]
    simp only [List.filter_cons, ih]


theorem mem_addLink {acc : List String} {t s : String} :
    s ∈ addLink acc t ↔ s ∈ acc ∨ s = t := by
  unfold addLink
  split_ifs with h
  · have ht : t ∈ acc := List.mem_of_elem_eq_true h
    constructor
    · exact fun hs => Or.inl hs
    · rintro (hs | rfl)
      · exact hs
      · exact ht
  · simp

theorem nodup_addLink {acc : List String} {t : String} (h : acc.Nodup) :
    (addLink acc t).Nodup := by
  unfold addLink
  split_ifs with hc
  · exact h
  · have ht : t ∉ acc := fun hm => hc (List.elem_eq_true_of_mem hm)
    simp [List.nodup_append, h, ht]

theorem mem_foldl_linkAdd {α : Type} (f : α → Option String) (l : List α)
    (acc : List String) (s : String) :
    s ∈ l.foldl (fun acc m =>
        match f m with | some t => addLink acc t | none => acc) acc ↔
      s ∈ acc ∨ ∃ m ∈ l, f m = some s := by
  induction l generalizing acc with
  | nil => simp
  | cons x l ih =>
    simp only [List.foldl_cons]
    cases hx : f x with
    | none => rw [ih]; simp [hx]
    | some t =>
      rw [ih, mem_addLink]
      constructor
      · rintro ((hs | rfl) | ⟨m, hm, hf⟩)
        · exact Or.inl hs
        · exact Or.inr ⟨x, List.mem_cons_self x l, hx⟩
        · exact Or.inr ⟨m, List.mem_cons_of_mem _ hm, hf⟩
      · rintro (hs | ⟨m, hm, hf⟩)
        · exact Or.inl (Or.inl hs)
        · rcases List.mem_cons.1 hm with rfl | hm2
          · rw [hx] at hf
            exact Or.inl (Or.inr (Option.some_injective _ hf.symm))
          · exact Or.inr ⟨m, hm2, hf⟩

theorem nodup_foldl_linkAdd {α : Type} (f : α → Option String) (l : List α)
    (acc : List String) (h : acc.Nodup) :
    (l.foldl (fun acc m =>
      match f m with | some t => addLink acc t | none => acc) acc).Nodup := by
  induction l generalizing acc with
  | nil => exact h
  | cons x l ih =>
    simp only [List.foldl_cons]
    cases hx : f x with
    | none => exact ih _ h
    | some t => exact ih _ (nodup_addLink h)

theorem linkTarget_eq_some {base : JsURL} {href s : String} :
    linkTarget base href = some s ↔
      ∃ u, urlResolve href base = some u ∧ u.host = base.host ∧
        u.pathname ≠ base.pathname ∧ extAllowed u.pathname = true ∧
        s = u.origin ++ u.pathname := by
  unfold linkTarget
  cases hr : urlResolve href base with
  | none => simp
  | some u =>
    dsimp only
    by_cases hc : (u.host = base.host && u.pathname ≠ base.pathname &&
        extAllowed u.pathname) = true
    · rw [if_pos hc]
      simp only [Bool.and_eq_true, decide_eq_true_eq] at hc
      constructor
      · intro h
        injection h with h2
        exact ⟨u, rfl, hc.1.1, hc.1.2, hc.2, h2.symm⟩
      · rintro ⟨v, hv, _, _, _, rfl⟩
        injection hv with hv2
        rw [hv2]
    · rw [if_neg hc]
      constructor
      · intro h; cases h
      · rintro ⟨v, hv, h1, h2, h3, rfl⟩
        injection hv with hv2
        subst hv2
        exact absurd (by simp [h1, h2, h3]) hc

theorem navLinkTarget_shape {base : JsURL} {href s : String}
    (h : navLinkTarget base href = some s) :
    ∃ u, urlResolve href base = some u ∧ s = u.origin ++ u.pathname := by
  unfold navLinkTarget at h
  cases hr : urlResolve href base with
  | none => rw [hr] at h; cases h
  | some u =>
    rw [hr] at h
    dsimp only at h
    split_ifs at h with hc
    injection h with h2
    exact ⟨u, rfl, h2.symm⟩

theorem noQH_parseAfterScheme {scheme : String} {cs : List Char} {u : JsURL}
    (hs1 : '?' ∉ scheme.data) (hs2 : '#' ∉ scheme.data)
    (h : parseAfterScheme scheme cs = some u) : noQH u := by
  unfold parseAfterScheme at h
  dsimp only at h
  by_cases he : (cs.takeWhile (fun c => !hostEnd c)).isEmpty = true
  · rw [if_pos he] at h; cases h
  · rw [if_neg he] at h
    injection h with h2
    subst h2
    refine ⟨⟨hs1, hs2⟩, ⟨?_, ?_⟩, ?_⟩
    · intro hm
      have := List.mem_takeWhile_imp hm
      simp [hostEnd] at this
    · intro hm
      have := List.mem_takeWhile_imp hm
      simp [hostEnd] at this
    · dsimp only
      split_ifs with hp
      · constructor <;> simp
      · constructor <;> intro hm <;> have h2 := List.mem_takeWhile_imp hm <;>
          simp [pathEnd] at h2

theorem noQH_urlParse {s : String} {u : JsURL} (h : urlParse s = some u) : noQH u := by
  unfold urlParse at h
  split_ifs at h
  · exact noQH_parseAfterScheme (by decide) (by decide) h
  · exact noQH_parseAfterScheme (by decide) (by decide) h

theorem dirChars_subset {cs : List Char} {x : Char} (h : x ∈ dirChars cs) : x ∈ cs := by
  unfold dirChars at h
  rw [List.mem_reverse] at h
  have h2 := (List.dropWhile_sublist _).subset h
  rwa [List.mem_reverse] at h2

theorem noQH_urlResolve {ref : String} {base u : JsURL} (hb : noQH base)
    (h : urlResolve ref base = some u) : noQH u := by
  unfold urlResolve at h
  dsimp only at h
  split_ifs at h with h1 h2 h3 h4 h5 h6
  · exact noQH_urlParse h
  · exact noQH_parseAfterScheme hb.1.1 hb.1.2 h
  · injection h with h2s
    subst h2s
    refine ⟨hb.1, hb.2.1, ?_, ?_⟩ <;> intro hm <;>
      have hp := List.mem_takeWhile_imp hm <;> simp [pathEnd] at hp
  · injection h with h2s
    subst h2s
    exact ⟨hb.1, hb.2.1, hb.2.2⟩
  · injection h with h2s
    subst h2s
    exact hb
  · injection h with h2s
    subst h2s
    exact hb
  · injection h with h2s
    subst h2s
    refine ⟨hb.1, hb.2.1, ?_, ?_⟩ <;> intro hm <;>
      rcases List.mem_append.1 hm with hd | ht
    · exact hb.2.2.1 (dirChars_subset hd)
    · have hp := List.mem_takeWhile_imp ht
      simp [pathEnd] at hp
    · exact hb.2.2.2 (dirChars_subset hd)
    · have hp := List.mem_takeWhile_imp ht
      simp [pathEnd] at hp

theorem noQH_target {u : JsURL} (h : noQH u) :
    '?' ∉ (u.origin ++ u.pathname).data ∧ '#' ∉ (u.origin ++ u.pathname).data := by
  have e : (u.origin ++ u.pathname).data =
      ((u.scheme.data ++ "://".data) ++ u.host.data) ++ u.pathname.data := rfl
  constructor <;> rw [e] <;> intro hm <;>
    rcases List.mem_append.1 hm with hm2 | hp
  · rcases List.mem_append.1 hm2 with hm3 | hh
    · rcases List.mem_append.1 hm3 with hs | hc
      · exact h.1.1 hs
      · simp at hc
    · exact h.2.1.1 hh
  · exact h.2.2.1 hp
  · rcases List.mem_append.1 hm2 with hm3 | hh
    · rcases List.mem_append.1 hm3 with hs | hc
      · exact h.1.2 hs
      · simp at hc
    · exact h.2.1.2 hh
  · exact h.2.2.2 hp

/-! ## The claims -/

/-- C2: for any fetch oracle and any input whose normalised URL parses,
each crawler reports failure exactly when the homepage fetch yields no
result; and when it does, the crawler returns the failure object with
the user-facing error message, an absent profile, and a fetch trace
consisting of the homepage URL alone — no subpage fetch is attempted. -/
theorem claim_C2 (fetch : String → Option String) (u : String)
    (h : (urlParse (normalizeUrl u)).isSome = true) :
    ((crawlSite fetch u).1.successB = false ↔ fetch (normalizeUrl u) = none) ∧
    ((crawlSiteV2 fetch u).1.successB = false ↔ fetch (normalizeUrl u) = none) ∧
    (fetch (normalizeUrl u) = none →
      crawlSite fetch u =
        (.failed "サイトにアクセスできませんでした。URLが正しいか確認してください。",
         [normalizeUrl u]) ∧
      crawlSiteV2 fetch u =
        (.failed "サイトにアクセスできませんでした。URLが正しいか確認してください。",
         [normalizeUrl u]) ∧
      (crawlSite fetch u).1.profileOpt = none ∧
      (crawlSiteV2 fetch u).1.profileOpt = none ∧
      (crawlSite fetch u).1.errorOpt.isSome = true ∧
      (crawlSiteV2 fetch u).1.errorOpt.isSome = true) := by
  obtain ⟨base, hb⟩ := Option.isSome_iff_exists.mp h
  cases hf : fetch (normalizeUrl u) with
  | none =>
    have h1 : crawlSite fetch u =
        (.failed "サイトにアクセスできませんでした。URLが正しいか確認してください。",
         [normalizeUrl u]) := by
      simp [crawlSite, crawlPage, hb, hf]
    have h2 : crawlSiteV2 fetch u =
        (.failed "サイトにアクセスできませんでした。URLが正しいか確認してください。",
         [normalizeUrl u]) := by
      simp [crawlSiteV2, crawlPage, hb, hf]
    simp [h1, h2, CrawlOutcome.successB, CrawlOutcome.profileOpt, CrawlOutcome.errorOpt]
  | some body =>
    refine ⟨?_, ?_, fun hc => (Option.some_ne_none _ hc).elim⟩
    · simp [crawlSite, crawlPage, hb, hf, CrawlOutcome.successB, buildSiteProfile_success]
    · simp [crawlSiteV2, crawlPage, hb, hf, CrawlOutcome.successB, buildSiteProfile_success]

/-- C2 (witness): an oracle that always fails, on `example.com`. -/
theorem claim_C2_witness :
    crawlSite (fun _ => none) "example.com" =
      (.failed "サイトにアクセスできませんでした。URLが正しいか確認してください。",
       ["https://example.com"]) ∧
    crawlSiteV2 (fun _ => none) "example.com" =
      (.failed "サイトにアクセスできませんでした。URLが正しいか確認してください。",
       ["https://example.com"]) := by
  have h := claim_C2 (fun _ => none) "example.com" (by decide)
  exact ⟨(h.2.2 rfl).1, (h.2.2 rfl).2.1⟩

/-- C3 (counterexample): in the bucketed crawl of the concrete scenario
`fetchC3` (homepage with four bucket-matching links, three of the four
selected subpage fetches failing), the `pageStatuses` list has length 5,
not 4 — it always carries a leading entry for the homepage itself — and
it contains three `"failed"` entries, not one. -/
theorem claim_C3_counterexample :
    (crawlSiteV2 fetchC3 "https://example.com").2 =
      ["https://example.com", "https://example.com/about", "https://example.com/service",
       "https://example.com/faq", "https://example.com/contact"] ∧
    ((crawlSiteV2 fetchC3 "https://example.com").1.statuses).length = 5 ∧
    ((crawlSiteV2 fetchC3 "https://example.com").1.statuses).length ≠ 4 ∧
    (((crawlSiteV2 fetchC3 "https://example.com").1.statuses).filter
      (fun s => s.status = "failed")).length = 3 := by
  refine ⟨by decide, by decide, by decide, by decide⟩

/-- C3 (amended): in that scenario the crawl still succeeds: 4 subpages
are selected (the fetch trace is the homepage plus those 4), the status
list has 5 entries (homepage plus one per selected subpage) of which
exactly 3 are `"failed"`, and the site profile is aggregated from
exactly 2 pages — the homepage and the single successful subpage — as
shown by `totalPages`, by the page summaries and by
`totalContentLength` being the sum over those two pages alone. -/
theorem claim_C3 :
    (crawlSiteV2 fetchC3 "https://example.com").1.successB = true ∧
    ((crawlSiteV2 fetchC3 "https://example.com").1.statuses).length = 5 ∧
    (((crawlSiteV2 fetchC3 "https://example.com").1.statuses).filter
      (fun s => s.status = "failed")).length = 3 ∧
    (((crawlSiteV2 fetchC3 "https://example.com").1.statuses).filter
      (fun s => s.status = "success")).map PageStatus.url =
      ["https://example.com", "https://example.com/about"] ∧
    ((crawlSiteV2 fetchC3 "https://example.com").1.profileOpt).map
      CrawlResult.totalPages = some 2 ∧
    ((crawlSiteV2 fetchC3 "https://example.com").1.profileOpt).map
      (fun r => r.pages.map PageSummary.url) =
      some ["https://example.com", "https://example.com/about"] ∧
    ((crawlSiteV2 fetchC3 "https://example.com").1.profileOpt).map
      (fun r => r.siteProfile.totalContentLength) =
      some ((crawlPageSignals "https://example.com" hpBodyC3).contentLength +
        (crawlPageSignals "https://example.com/about" aboutBodyC3).contentLength) := by
  refine ⟨by decide, by decide, by decide, by decide, by decide, by decide, by decide⟩

/-- C1 (counterexample): the claim asserts that a total aggregated text
length of exactly 5,000 characters scores 2 points on the content-volume
sub-criterion; on the code the tier boundary `>5000` is strict, so 5,000
falls into the `>2000` tier and scores 1, not 2. -/
theorem claim_C1_counterexample :
    (scoreContent crawl0 { sp0 with totalContentLength := 5000 }).contentDepth.score = 1 ∧
    (scoreContent crawl0 { sp0 with totalContentLength := 5000 }).contentDepth.score ≠ 2 := by
  decide

/-- C1 (amended): the content-volume sub-score of the content category
is the step function of the total aggregated text length `L` with 6
points for `L > 20000`, 4 for `L > 10000`, 2 for `L > 5000`, 1 for
`L > 2000` and 0 otherwise; in particular exactly 5,000 characters score
1 point (not 2), 5,001 score 2, and 10,001 score 4 — shown here at every
tier boundary. -/
theorem claim_C1 (crawl : CrawlResult) (sp : SiteProfile) :
    (scoreContent crawl { sp with totalContentLength := 20001 }).contentDepth.score = 6 ∧
    (scoreContent crawl { sp with totalContentLength := 20000 }).contentDepth.score = 4 ∧
    (scoreContent crawl { sp with totalContentLength := 10001 }).contentDepth.score = 4 ∧
    (scoreContent crawl { sp with totalContentLength := 10000 }).contentDepth.score = 2 ∧
    (scoreContent crawl { sp with totalContentLength := 5001 }).contentDepth.score = 2 ∧
    (scoreContent crawl { sp with totalContentLength := 5000 }).contentDepth.score = 1 ∧
    (scoreContent crawl { sp with totalContentLength := 2001 }).contentDepth.score = 1 ∧
    (scoreContent crawl { sp with totalContentLength := 2000 }).contentDepth.score = 0 := by
  norm_num [scoreContent, contentDepthScore, jsOrNat]

/-- C4: `prioritizePages` returns a permutation of its input in which
weights are non-increasing and the sort is stable (for every weight
class, the links of that weight appear in their original input order,
stated as a filter identity); the weight of a link is that of the first
matching table keyword, and a URL matching no keyword gets weight 3
(shown at a concrete keyword-free URL); the concrete URL containing
both `contact` (weight 7) and `privacy` (weight 8) gets 8 because
`privacy` comes first in the table — first match, not best or
cumulative match. -/
theorem claim_C4 (links : List String) :
    (prioritizePages links).Perm links ∧
    List.Pairwise (fun a b => linkWeight b ≤ linkWeight a) (prioritizePages links) ∧
    (∀ w, (prioritizePages links).filter (fun u => linkWeight u = w) =
      links.filter (fun u => linkWeight u = w)) ∧
    linkWeight "https://example.com/xyz" = 3 ∧
    linkWeight "https://example.com/contact-privacy" = 8 := by
  haveI inst1 : IsTotal (String × Nat) (fun a b => b.2 ≤ a.2) := ⟨fun a b => le_total b.2 a.2⟩
  haveI inst2 : IsTrans (String × Nat) (fun a b => b.2 ≤ a.2) :=
    ⟨fun _ _ _ hab hbc => le_trans hbc hab⟩
  have hinv : ∀ y ∈ (links.map (fun url => (url, linkWeight url))).insertionSort
      (fun a b => b.2 ≤ a.2), y.2 = linkWeight y.1 := by
    intro y hy
    have hmem : y ∈ links.map (fun url => (url, linkWeight url)) :=
      (List.mem_insertionSort _).1 hy
    obtain ⟨u, _, rfl⟩ := List.mem_map.1 hmem
    rfl
  refine ⟨?_, ?_, ?_, by decide, by decide⟩
  · have hperm := (List.perm_insertionSort (fun a b : String × Nat => b.2 ≤ a.2)
      (links.map (fun url => (url, linkWeight url)))).map Prod.fst
    have hid : (Prod.fst ∘ fun url : String => (url, linkWeight url)) = id := rfl
    rw [List.map_map, hid, List.map_id] at hperm
    simpa [prioritizePages] using hperm
  · have hs := List.sorted_insertionSort (fun a b : String × Nat => b.2 ≤ a.2)
      (links.map (fun url => (url, linkWeight url)))
    have hp : List.Pairwise (fun x y : String × Nat => linkWeight y.1 ≤ linkWeight x.1)
        ((links.map (fun url => (url, linkWeight url))).insertionSort
          (fun a b => b.2 ≤ a.2)) := by
      refine List.Pairwise.imp_of_mem (fun ha hb hr => ?_) hs
      rw [← hinv _ ha, ← hinv _ hb]
      exact hr
    unfold prioritizePages
    exact (List.pairwise_map).2 hp
  · intro w
    unfold prioritizePages
    rw [List.filter_map]
    have hcg : ((links.map (fun url => (url, linkWeight url))).insertionSort
        (fun a b => b.2 ≤ a.2)).filter ((fun u => linkWeight u = w) ∘ Prod.fst) =
        ((links.map (fun url => (url, linkWeight url))).insertionSort
        (fun a b => b.2 ≤ a.2)).filter (fun y => y.2 = w) := by
      refine List.filter_congr ?_
      intro y hy
      simp [Function.comp, hinv y hy]
    rw [hcg, filter_weight_insertionSort, List.filter_map]
    have hid : (Prod.fst ∘ fun url : String => (url, linkWeight url)) = id := rfl
    have hpd : ((fun y : String × Nat => decide (y.2 = w)) ∘ fun url => (url, linkWeight url)) =
        fun u => decide (linkWeight u = w) := rfl
    rw [hpd, List.map_map, hid, List.map_id]

/-- C5: `classifyPage` is a total function whose value always lies in
the fixed ten-label taxonomy, and the company category is tested first:
any URL containing the token `company` classifies as `company`
regardless of the other categories' tokens (so a URL with both `company`
and `faq` yields `company`). -/
theorem claim_C5 (url title text : String) :
    classifyPage url title text ∈
      ["company", "testimonials", "faq", "privacy", "terms", "blog", "contact",
       "pricing", "service", "other"] ∧
    (strContains (jsToLower url) "company" = true →
      classifyPage url title text = "company") := by
  constructor
  · unfold classifyPage
    dsimp only
    split_ifs <;> simp
  · intro h
    simp [classifyPage, h]

/-- C5 (witness): a URL containing both `company` and `faq` tokens
classifies as `company`. -/
theorem claim_C5_witness :
    classifyPage "https://example.com/company/faq" "" "" = "company" :=
  (claim_C5 "https://example.com/company/faq" "" "").2 (by decide)

/-- C6 (counterexample): the claim asserts `hasAltText = 1.0` whenever
the image count is 0; on the code `checkAltText` returns the JavaScript
boolean `true` (not the number 1.0) for a page with no image tags, a
distinct value that the downstream `typeof` checks treat separately. -/
theorem claim_C6_counterexample :
    (crawlPageSignals "https://example.com" "").imageCount = 0 ∧
    (crawlPageSignals "https://example.com" "").hasAltText = AltVal.bool true ∧
    AltVal.bool true ≠ AltVal.num 1 := by
  decide

/-- C6 (amended): when a page has no complete `<img ...>` tag,
`checkAltText` returns the boolean `true` rather than a number;
otherwise it returns a numeric ratio that always lies in `[0, 1]` (the
fraction of image tags carrying a non-empty `alt` attribute). -/
theorem claim_C6 (html : String) :
    ((imgTagsAux html.data).length = 0 → checkAltText html = .bool true) ∧
    (0 < (imgTagsAux html.data).length →
      ∃ q : ℚ, checkAltText html = .num q ∧ 0 ≤ q ∧ q ≤ 1) := by
  constructor
  · intro h
    unfold checkAltText
    rw [if_pos h]
  · intro h
    unfold checkAltText
    rw [if_neg (by omega)]
    refine ⟨_, rfl, by positivity, ?_⟩
    rw [div_le_one (by exact_mod_cast h)]
    exact_mod_cast List.length_filter_le _ _

/-- C6 (witness): a page with one image tag without alt text gets a
numeric ratio in `[0, 1]`. -/
theorem claim_C6_witness :
    ∃ q : ℚ, checkAltText "<img src=\"x.png\">" = .num q ∧ 0 ≤ q ∧ q ≤ 1 :=
  (claim_C6 "<img src=\"x.png\">").2 (by decide)

/-- C7: each of the four category scorers stays within `[0, maxScore]`
with `maxScore = 25` (the scores are natural numbers, so the lower bound
is intrinsic), and the overall `totalScore` is exactly the sum of the
four category totals, hence at most 100. -/
theorem claim_C7 (currentYear : Nat) (crawl : CrawlResult) :
    (scoreSite currentYear crawl).a.total ≤ 25 ∧
    (scoreSite currentYear crawl).b.total ≤ 25 ∧
    (scoreSite currentYear crawl).c.total ≤ 25 ∧
    (scoreSite currentYear crawl).d.total ≤ 25 ∧
    (scoreSite currentYear crawl).a.maxScore = 25 ∧
    (scoreSite currentYear crawl).b.maxScore = 25 ∧
    (scoreSite currentYear crawl).c.maxScore = 25 ∧
    (scoreSite currentYear crawl).d.maxScore = 25 ∧
    (scoreSite currentYear crawl).totalScore =
      (scoreSite currentYear crawl).a.total + (scoreSite currentYear crawl).b.total +
      (scoreSite currentYear crawl).c.total + (scoreSite currentYear crawl).d.total ∧
    (scoreSite currentYear crawl).totalScore ≤ 100 := by
  have h1 := scoreContent_total_le crawl crawl.siteProfile
  have h2 := scoreTrust_total_le crawl.siteProfile
  have h3 := scoreAIReady_total_le crawl crawl.siteProfile
  have h4 := scoreTechnical_total_le currentYear crawl crawl.siteProfile
  simp only [scoreSite, scoreContent, scoreTrust, scoreAIReady, scoreTechnical] at *
  refine ⟨h1, h2, h3, h4, ?_, ?_, ?_, ?_, ?_, ?_⟩ <;> first
    | trivial
    | omega


/-- C8 (counterexample): the claim describes the extractor's output as
exactly the spec set (`specInternalLinks`); on the concrete page with
anchors `/page#top` and `/v1.2/page` the code returns the empty list
while the spec set has both URLs: the anchor regex skips any href
containing `#` anywhere (not only fragment-only links), and the
extension check runs `split('.').pop()` on the whole pathname, so a dot
inside a directory name also excludes the path. -/
theorem claim_C8_counterexample :
    extractAllInternalLinks
        "<a href=\"/page#top\">x</a><a href=\"/v1.2/page\">y</a>" "https://example.com/" ≠
      specInternalLinks
        "<a href=\"/page#top\">x</a><a href=\"/v1.2/page\">y</a>" "https://example.com/" ∧
    specInternalLinks
        "<a href=\"/page#top\">x</a><a href=\"/v1.2/page\">y</a>" "https://example.com/" =
      ["https://example.com/page", "https://example.com/v1.2/page"] ∧
    extractAllInternalLinks
        "<a href=\"/page#top\">x</a><a href=\"/v1.2/page\">y</a>" "https://example.com/" =
      [] := by
  refine ⟨by decide, by decide, by decide⟩

/-- C8 (amended): the link extractor returns a duplicate-free list
whose members are exactly the `origin ++ pathname` values of the
anchor-regex captures (hrefs containing `#` anywhere are skipped by the
regex itself) that resolve against the base URL to a same-host URL with
a pathname different from the base's and whose extension — computed as
`split('.').pop()` over the whole pathname — is empty, `html`, `htm` or
`php`, or with no dot anywhere in the pathname; unresolvable hrefs are
skipped without aborting, and an unparsable base yields the empty
list. -/
theorem claim_C8 (html baseUrl : String) :
    (urlParse baseUrl = none → extractAllInternalLinks html baseUrl = []) ∧
    (∀ base, urlParse baseUrl = some base →
      (extractAllInternalLinks html baseUrl).Nodup ∧
      (∀ s, s ∈ extractAllInternalLinks html baseUrl ↔
        ∃ m ∈ anchorScan html.data, ∃ u, urlResolve (String.mk m.2) base = some u ∧
          u.host = base.host ∧ u.pathname ≠ base.pathname ∧ extAllowed u.pathname = true ∧
          s = u.origin ++ u.pathname)) := by
  constructor
  · intro h
    unfold extractAllInternalLinks
    rw [h]
  · intro base hb
    unfold extractAllInternalLinks
    rw [hb]
    dsimp only
    constructor
    · exact nodup_foldl_linkAdd
        (fun m : List Char × List Char => linkTarget base (String.mk m.2)) _ _ List.nodup_nil
    · intro s
      rw [mem_foldl_linkAdd (fun m : List Char × List Char => linkTarget base (String.mk m.2))]
      simp only [List.not_mem_nil, false_or]
      constructor
      · rintro ⟨m, hm, hf⟩
        exact ⟨m, hm, linkTarget_eq_some.1 hf⟩
      · rintro ⟨m, hm, hex⟩
        exact ⟨m, hm, linkTarget_eq_some.2 hex⟩

/-- C8 (witness): a concrete extraction (with a duplicate anchor and a
`.html` link) is duplicate-free. -/
theorem claim_C8_witness :
    (extractAllInternalLinks "<a href=\"/a\">x</a><a href=\"/a\">y</a><a href=\"/b.html\">z</a>"
      "https://example.com/").Nodup :=
  ((claim_C8 "<a href=\"/a\">x</a><a href=\"/a\">y</a><a href=\"/b.html\">z</a>"
      "https://example.com/").2
    { scheme := "https", host := "example.com", pathname := "/", search := "" }
    (by decide)).1

/-- C9: every URL produced by the link extractor (and by the
navigation-link fallback) is `origin ++ pathname` of the resolved link,
so it contains no `?` and no `#` — query strings and fragments are
stripped before deduplication; concretely, two anchors whose hrefs
differ only in their query string collapse to the single candidate
`https://example.com/p`. -/
theorem claim_C9 (html baseUrl : String) :
    (∀ s ∈ extractAllInternalLinks html baseUrl, '?' ∉ s.data ∧ '#' ∉ s.data) ∧
    (∀ s ∈ extractNavLinks html baseUrl, '?' ∉ s.data ∧ '#' ∉ s.data) ∧
    extractAllInternalLinks "<a href=\"/p?a=1\">x</a><a href=\"/p?b=2\">y</a>"
      "https://example.com/" = ["https://example.com/p"] := by
  refine ⟨?_, ?_, by decide⟩
  · intro s hs
    unfold extractAllInternalLinks at hs
    cases hp : urlParse baseUrl with
    | none => rw [hp] at hs; cases hs
    | some base =>
      rw [hp] at hs
      dsimp only at hs
      rw [mem_foldl_linkAdd
        (fun m : List Char × List Char => linkTarget base (String.mk m.2))] at hs
      rcases hs with h0 | ⟨m, hm, hf⟩
      · cases h0
      · obtain ⟨u, hu, _, _, _, rfl⟩ := linkTarget_eq_some.1 hf
        exact noQH_target (noQH_urlResolve (noQH_urlParse hp) hu)
  · intro s hs
    unfold extractNavLinks at hs
    cases hp : urlParse baseUrl with
    | none => rw [hp] at hs; cases hs
    | some base =>
      rw [hp] at hs
      dsimp only at hs
      rw [mem_foldl_linkAdd
        (fun m : List Char × List Char => navLinkTarget base (String.mk m.2))] at hs
      rcases hs with h0 | ⟨m, hm, hf⟩
      · cases h0
      · obtain ⟨u, hu, rfl⟩ := navLinkTarget_shape hf
        exact noQH_target (noQH_urlResolve (noQH_urlParse hp) hu)

/-- C9 (witness): the collapsed candidate of the two query-differing
anchors carries no query or fragment character. -/
theorem claim_C9_witness :
    '?' ∉ ("https://example.com/p" : String).data ∧
    '#' ∉ ("https://example.com/p" : String).data := by
  have h := claim_C9 "<a href=\"/p?a=1\">x</a><a href=\"/p?b=2\">y</a>" "https://example.com/"
  refine h.1 "https://example.com/p" ?_
  rw [h.2.2]
  exact List.mem_singleton.2 rfl


/-- C10: `pageSize` is the length of the full response body before
truncation, while every other extracted signal is a function of only
the first 500,000 characters (bodies agreeing on that prefix yield
identical signals apart from `pageSize`); `pageSize` can exceed 500,000
(the 500,001-character `bigBody` reports 500,001), and the technical
page-weight tiers see the untruncated size — `buildSiteProfile` copies
the homepage's `pageSize` through unchanged, and for any crawl object
with `pageSize ≥ 500,000` the size tier of the speed sub-score
contributes nothing. -/
theorem claim_C10 (finalUrl b1 b2 : String) :
    (crawlPageSignals finalUrl b1).pageSize = b1.length ∧
    (jsTake b1 500000 = jsTake b2 500000 →
      { crawlPageSignals finalUrl b1 with pageSize := 0 } =
        { crawlPageSignals finalUrl b2 with pageSize := 0 }) ∧
    (crawlPageSignals finalUrl bigBody).pageSize = 500001 ∧
    (∀ pages hp, (buildSiteProfile pages hp).pageSize = hp.pageSize) ∧
    (∀ crawl : CrawlResult, 500000 ≤ crawl.pageSize →
      speedScore crawl = (if crawl.scriptCount ≤ 5 then 1 else 0) +
        (if crawl.imageCount ≤ 15 then 1 else 0)) := by
  refine ⟨rfl, ?_, ?_, fun _ _ => rfl, ?_⟩
  · intro h
    simp only [crawlPageSignals]
    rw [h]
  · have h2 : (crawlPageSignals finalUrl bigBody).pageSize =
        (List.replicate 500001 'a').length := rfl
    rw [h2, List.length_replicate]
  · intro crawl hcr
    unfold speedScore
    rw [if_neg (by omega), if_neg (by omega), if_neg (by omega), Nat.zero_add]

/-- C10 (witness): the truncation-invariance hypothesis discharged at a
concrete body, and the speed sub-score of a concrete 600,000-byte crawl
getting no size points (only the script and image points). -/
theorem claim_C10_witness :
    ({ crawlPageSignals "https://example.com" "<p>x</p>" with pageSize := 0 } =
      { crawlPageSignals "https://example.com" "<p>x</p>" with pageSize := 0 }) ∧
    speedScore { crawl0 with pageSize := 600000 } = 2 := by
  constructor
  · exact (claim_C10 "https://example.com" "<p>x</p>" "<p>x</p>").2.1 rfl
  · have h := (claim_C10 "" "" "").2.2.2.2 { crawl0 with pageSize := 600000 } (by decide)
    rw [h]
    decide

end Ciras
